import Mathlib

/-!
Shallow embedding of `src/src/booking/booking.service.ts` (BookingService,
book-it-api). The Prisma store is modelled as an explicit record of tables;
each service method becomes a pure function from a store state (plus the
validated inputs) to a response together with the successor state. A JS
`TypeError` raised by dereferencing a `null` lookup result is caught by the
service's `try/catch` and surfaces as the method's `serverError` response
with the state unchanged, exactly as in the source (no write precedes any
such dereference). Response messages are modelled as an enumeration, one
constructor per distinct message string of the source.
-/

namespace BookIt

/-- JS millisecond timestamps, prices and room counts are JS numbers that the
service only combines with `+`, `-`, `*` and comparisons, so they are
modelled as integers. -/
abbrev Timestamp := Int

/-- A `Room` row: the fields the booking service reads
(`id`, `hotelId`, `price`, `numberAvailable`). -/
structure Room where
  id : Nat
  hotelId : Nat
  price : Int
  numberAvailable : Int
deriving Repr, DecidableEq

/-- A `Hotel` row; the booking service only ever passes it through the
`include hotel` join, so only its key is modelled. -/
structure Hotel where
  id : Nat
deriving Repr, DecidableEq

/-- A `Booking` row with the fields the service reads and writes. -/
structure Booking where
  id : Nat
  userId : Nat
  roomId : Nat
  hotelId : Nat
  checkInDate : Timestamp
  checkOutDate : Timestamp
  numberOfRooms : Int
  cost : Int
  createdAt : Timestamp
  updatedAt : Timestamp
deriving Repr, DecidableEq

/-- The fields of `CreateBookingDto` / `UpdateBookingDto` that
`booking.service.ts` actually reads (the dto class files are not part of the
booking service source; the shape is taken from its uses `dto.roomId`,
`dto.checkInDate`, `dto.checkOutDate`, `dto.numberOfRooms` and the
`...dto` spread). -/
structure BookingDto where
  roomId : Nat
  checkInDate : Timestamp
  checkOutDate : Timestamp
  numberOfRooms : Int
deriving Repr, DecidableEq

/-- The Prisma database state: the four tables the booking service touches.
Users carry no fields the service reads besides their key. -/
structure DBState where
  users : List Nat
  hotels : List Hotel
  rooms : List Room
  bookings : List Booking
deriving Repr, DecidableEq

/-- The distinct response messages of `booking.service.ts`, one constructor
per message string. -/
inductive Msg where
  | userOrRoomMissing
  | insufficientRooms
  | bookingCreated
  | errorCreatingBooking
  | bookingMissing
  | bookingUpdated
  | errorUpdatingBooking
  | userMissing
  | noBookings
  | bookingsRetrieved
  | errorRetrievingBookings
  | bookingDeleted
  | errorDeletingBooking
  | bookingsDeleted
  | errorDeletingAll
deriving Repr, DecidableEq

/-- The outcome handed to the response handler: `clientError`,
`serverError`, or `requestSuccessful` with a message. -/
inductive Res where
  | clientError (msg : Msg)
  | serverError (msg : Msg)
  | success (msg : Msg)
deriving Repr, DecidableEq

/-- `prisma.room.findUnique` by id. -/
def findRoom (st : DBState) (roomId : Nat) : Option Room :=
  st.rooms.find? (fun r => r.id == roomId)

/-- `prisma.booking.findUnique` by id. -/
def findBooking (st : DBState) (id : Nat) : Option Booking :=
  st.bookings.find? (fun b => b.id == id)

/-- `prisma.user.findUnique` reduced to existence, the only thing the
service uses a `User` row for. -/
def userExists (st : DBState) (userId : Nat) : Bool :=
  st.users.contains userId

/-- `oneDay = 24 * 60 * 60 * 1000` milliseconds. -/
def oneDay : Nat := 24 * 60 * 60 * 1000

/-- `getNumberOfNights`: `Math.round(Math.abs((start - end) / oneDay))`,
computed exactly: for `q ≥ 0`, `Math.round q = ⌊q + 1/2⌋`, and with
`q = d / oneDay` this is `⌊(2 * d + oneDay) / (2 * oneDay)⌋`. -/
def getNumberOfNights (checkInDate checkOutDate : Timestamp) : Nat :=
  (2 * (checkInDate - checkOutDate).natAbs + oneDay) / (2 * oneDay)

/-- `prisma.room.update` writing a new `numberAvailable` for a room id. -/
def setRoomAvail (st : DBState) (roomId : Nat) (newAvail : Int) : DBState :=
  { st with
    rooms := st.rooms.map (fun r =>
      if r.id == roomId then { r with numberAvailable := newAvail } else r) }

/-- `createBooking(userId, dto, res)`. `freshId` stands for the id the store
generates for the inserted row. In the source, when the guard
`!user && room` is false and `room` is `null`, reading `room.numberAvailable`
throws and the catch block answers `serverError`. -/
def createBooking (st : DBState) (userId : Nat) (dto : BookingDto)
    (freshId : Nat) : Res × DBState :=
  let user := userExists st userId
  let room? := findRoom st dto.roomId
  if !user && room?.isSome then
    (Res.clientError Msg.userOrRoomMissing, st)
  else
    match room? with
    | none => (Res.serverError Msg.errorCreatingBooking, st)
    | some room =>
      if dto.numberOfRooms < room.numberAvailable then
        let numberOfNights := getNumberOfNights dto.checkInDate dto.checkOutDate
        let cost := (numberOfNights : Int) * dto.numberOfRooms * room.price
        let b : Booking :=
          { id := freshId, userId := userId, roomId := room.id,
            hotelId := room.hotelId, checkInDate := dto.checkInDate,
            checkOutDate := dto.checkOutDate, numberOfRooms := dto.numberOfRooms,
            cost := cost, createdAt := 0, updatedAt := 0 }
        let st1 : DBState := { st with bookings := st.bookings ++ [b] }
        let st2 := setRoomAvail st1 room.id (room.numberAvailable - dto.numberOfRooms)
        (Res.success Msg.bookingCreated, st2)
      else
        (Res.clientError Msg.insufficientRooms, st)

/-- `updateBookingById(bookingId, userId, dto, res)`. The `userId` argument
is unused by the source body and therefore omitted. When the booking exists
but `dto.roomId` resolves to no room, reading `room.price` throws and the
catch block answers `serverError`. No admission check is performed. -/
def updateBookingById (st : DBState) (bookingId : Nat) (dto : BookingDto) :
    Res × DBState :=
  match findBooking st bookingId with
  | none => (Res.clientError Msg.bookingMissing, st)
  | some booking =>
    match findRoom st dto.roomId with
    | none => (Res.serverError Msg.errorUpdatingBooking, st)
    | some room =>
      let newNumberOfNights := getNumberOfNights dto.checkInDate dto.checkOutDate
      let newCost := (newNumberOfNights : Int) * dto.numberOfRooms * room.price
      let st1 := setRoomAvail st room.id
        (room.numberAvailable + booking.numberOfRooms - dto.numberOfRooms)
      let st2 : DBState :=
        { st1 with
          bookings := st1.bookings.map (fun b =>
            if b.id == bookingId then
              { b with
                roomId := dto.roomId, checkInDate := dto.checkInDate,
                checkOutDate := dto.checkOutDate,
                numberOfRooms := dto.numberOfRooms, cost := newCost }
            else b) }
      (Res.success Msg.bookingUpdated, st2)

/-- `deleteBookingById(id, res)`: deletes the row; no write to any room. -/
def deleteBookingById (st : DBState) (id : Nat) : Res × DBState :=
  match findBooking st id with
  | none => (Res.clientError Msg.bookingMissing, st)
  | some _ =>
    (Res.success Msg.bookingDeleted,
      { st with bookings := st.bookings.filter (fun b => !(b.id == id)) })

/-- `deleteAllBookings(userId, res)`: checks the user, lists the bookings,
answers `clientError` on an empty list, else `deleteMany`; no room write. -/
def deleteAllBookings (st : DBState) (userId : Nat) : Res × DBState :=
  if !(userExists st userId) then
    (Res.clientError Msg.userMissing, st)
  else
    let bookings := st.bookings.filter (fun b => b.userId == userId)
    if bookings.length < 1 then
      (Res.clientError Msg.noBookings, st)
    else
      (Res.success Msg.bookingsDeleted,
        { st with bookings := st.bookings.filter (fun b => !(b.userId == userId)) })

/-- The shape of one element of the `getAllBookingsByUser` success payload:
the booking joined with its hotel and room rows, after the source deletes
`hotelId`, `roomId`, `createdAt`, `updatedAt` and `userId` from it. -/
structure BookingView where
  id : Nat
  checkInDate : Timestamp
  checkOutDate : Timestamp
  numberOfRooms : Int
  cost : Int
  hotel : Option Hotel
  room : Option Room
deriving Repr, DecidableEq

/-- The outcome of the list operation, whose success carries a payload. -/
inductive ListRes where
  | clientError (msg : Msg)
  | serverError (msg : Msg)
  | success (msg : Msg) (payload : List BookingView)
deriving Repr, DecidableEq

/-- The `include` join of hotel and room followed by the
`forEach` that deletes `hotelId`, `roomId`, `createdAt`, `updatedAt`,
`userId` from each returned booking. -/
def stripBooking (st : DBState) (b : Booking) : BookingView :=
  { id := b.id, checkInDate := b.checkInDate, checkOutDate := b.checkOutDate,
    numberOfRooms := b.numberOfRooms, cost := b.cost,
    hotel := st.hotels.find? (fun h => h.id == b.hotelId),
    room := findRoom st b.roomId }

/-- `getAllBookingsByUser(userId, res)`. -/
def getAllBookingsByUser (st : DBState) (userId : Nat) : ListRes :=
  if !(userExists st userId) then
    ListRes.clientError Msg.userMissing
  else
    let bookings :=
      (st.bookings.filter (fun b => b.userId == userId)).map (stripBooking st)
    if bookings.length > 0 then
      ListRes.success Msg.bookingsRetrieved bookings
    else
      ListRes.clientError Msg.noBookings

/-- Sum of `numberOfRooms` over the active bookings that reference a room. -/
def activeSum (st : DBState) (roomId : Nat) : Int :=
  ((st.bookings.filter (fun b => b.roomId == roomId)).map
    (fun b => b.numberOfRooms)).sum

/-- `numberAvailable` of the room with the given id, when it exists. -/
def roomAvail (st : DBState) (roomId : Nat) : Option Int :=
  (findRoom st roomId).map (fun r => r.numberAvailable)

/-- The room-capacity ledger quantity of the system-wide invariant:
`numberAvailable + Σ (active bookings' numberOfRooms)` for a room id. -/
def ledger (st : DBState) (roomId : Nat) : Option Int :=
  (findRoom st roomId).map (fun r => r.numberAvailable + activeSum st roomId)

/-- 2024-01-01T00:00:00Z in milliseconds. -/
def jan1 : Timestamp := 1704067200000

/-- 2024-01-04T00:00:00Z in milliseconds. -/
def jan4 : Timestamp := 1704326400000

/-- A room with five units available, nightly price 100. -/
def room5 : Room := { id := 5, hotelId := 1, price := 100, numberAvailable := 5 }

/-- A store with one user, one hotel, the five-unit room and no bookings. -/
def stAdm : DBState :=
  { users := [1], hotels := [{ id := 1 }], rooms := [room5], bookings := [] }

/-- A request for five rooms against `room5` (the exact-boundary request). -/
def dto5 : BookingDto :=
  { roomId := 5, checkInDate := jan1, checkOutDate := jan4, numberOfRooms := 5 }

/-- A request for four rooms against `room5`. -/
def dto4 : BookingDto :=
  { roomId := 5, checkInDate := jan1, checkOutDate := jan4, numberOfRooms := 4 }

/-- A three-night request for two rooms against `room5`. -/
def dtoJan : BookingDto :=
  { roomId := 5, checkInDate := jan1, checkOutDate := jan4, numberOfRooms := 2 }

/-- A request whose check-out equals its check-in (zero nights). -/
def dtoSameDay : BookingDto :=
  { roomId := 5, checkInDate := jan1, checkOutDate := jan1, numberOfRooms := 2 }

/-- A request naming a room id that is not in `stAdm`. -/
def dtoNoRoom : BookingDto :=
  { roomId := 9, checkInDate := jan1, checkOutDate := jan4, numberOfRooms := 1 }

/-- A room with a single unit available. -/
def room1avail : Room := { id := 7, hotelId := 1, price := 100, numberAvailable := 1 }

/-- A booking of three rooms on room 7. -/
def bkg3 : Booking :=
  { id := 1, userId := 1, roomId := 7, hotelId := 1, checkInDate := jan1,
    checkOutDate := jan4, numberOfRooms := 3, cost := 900, createdAt := 0,
    updatedAt := 0 }

/-- A store where room 7 has one unit available and booking 1 holds three. -/
def stDel : DBState :=
  { users := [1], hotels := [{ id := 1 }], rooms := [room1avail], bookings := [bkg3] }

/-- A room with three units available. -/
def room3avail : Room := { id := 7, hotelId := 1, price := 100, numberAvailable := 3 }

/-- A booking of two rooms on room 7. -/
def bkg2 : Booking :=
  { id := 1, userId := 1, roomId := 7, hotelId := 1, checkInDate := jan1,
    checkOutDate := jan4, numberOfRooms := 2, cost := 600, createdAt := 0,
    updatedAt := 0 }

/-- A store where room 7 has three units available and booking 1 holds two. -/
def stUpd : DBState :=
  { users := [1], hotels := [{ id := 1 }], rooms := [room3avail], bookings := [bkg2] }

/-- An update of booking 1 to five rooms on room 7. -/
def dtoUp5 : BookingDto :=
  { roomId := 7, checkInDate := jan1, checkOutDate := jan4, numberOfRooms := 5 }

/-- An update of booking 1 to ten rooms on room 7. -/
def dtoUp10 : BookingDto :=
  { roomId := 7, checkInDate := jan1, checkOutDate := jan4, numberOfRooms := 10 }

theorem findRoom_id (st : DBState) (q : Nat) (r : Room)
    (h : findRoom st q = some r) : r.id = q := by
  have h' : st.rooms.find? (fun r => r.id == q) = some r := h
  simpa using List.find?_some h'

theorem find?_map_pred_comm {α β : Type} (f : α → β) (p : α → Bool) (q : β → Bool)
    (h : ∀ a, q (f a) = p a) (l : List α) :
    (l.map f).find? q = (l.find? p).map f := by
  induction l with
  | nil => rfl
  | cons a t ih =>
    by_cases hp : p a = true
    · rw [List.map_cons, List.find?_cons_of_pos _ (by rw [h a]; exact hp),
        List.find?_cons_of_pos _ hp]
      rfl
    · rw [List.map_cons, List.find?_cons_of_neg _ (by simp [h a, hp]),
        List.find?_cons_of_neg _ (by simpa using hp), ih]

theorem findRoom_setRoomAvail (st : DBState) (rid q : Nat) (v : Int) :
    findRoom (setRoomAvail st rid v) q =
      (findRoom st q).map
        (fun r => if r.id == rid then { r with numberAvailable := v } else r) := by
  unfold findRoom setRoomAvail
  refine find?_map_pred_comm _ _ _ (fun r => ?_) st.rooms
  by_cases h : r.id == rid <;> simp [h]

theorem findBooking_map_id_preserving (st : DBState) (id : Nat)
    (g : Booking → Booking) (hg : ∀ b, (g b).id = b.id) :
    findBooking { st with bookings := st.bookings.map g } id =
      (findBooking st id).map g := by
  unfold findBooking
  exact find?_map_pred_comm _ _ _ (fun b => by simp [hg b]) st.bookings

theorem findRoom_set_bookings (st : DBState) (l : List Booking) (q : Nat) :
    findRoom { st with bookings := l } q = findRoom st q := rfl

theorem findBooking_setRoomAvail (st : DBState) (rid : Nat) (v : Int) (q : Nat) :
    findBooking (setRoomAvail st rid v) q = findBooking st q := rfl

/-- C1: the ledger equation `numberAvailable + Σ (active bookings' numberOfRooms)`
is NOT preserved by every lifecycle operation: in `stDel` the quantity for room 7
is 4 before `deleteBookingById`, and the completed delete leaves it at 1, because
the source deletes the booking row without crediting the room. -/
theorem deleteBookingById_breaks_ledger_equation :
    ledger stDel 7 = some 4 ∧
    (deleteBookingById stDel 1).1 = Res.success Msg.bookingDeleted ∧
    ledger (deleteBookingById stDel 1).2 7 = some 1 := by decide

/-- C2: deleting booking 1 (three rooms) from `stDel`, whose room 7 has
`numberAvailable = 1`, removes the booking but leaves `numberAvailable` at 1,
not at the 4 the claim requires: the source performs no ledger credit. -/
theorem deleteBookingById_no_room_credit :
    (deleteBookingById stDel 1).1 = Res.success Msg.bookingDeleted ∧
    findBooking (deleteBookingById stDel 1).2 1 = none ∧
    roomAvail stDel 7 = some 1 ∧
    roomAvail (deleteBookingById stDel 1).2 7 = some 1 := by decide

/-- C3: when the requested room id does not resolve (here id 9 in `stAdm`),
`createBooking` does not answer the `NotFound` client error the claim states:
whether the user exists (id 1) or not (id 2), it ends in the catch-all server
error and leaves the store unchanged, because the guard `!user && room`
requires the room to exist. -/
theorem createBooking_room_missing_server_error :
    createBooking stAdm 1 dtoNoRoom 11 =
      (Res.serverError Msg.errorCreatingBooking, stAdm) ∧
    createBooking stAdm 2 dtoNoRoom 11 =
      (Res.serverError Msg.errorCreatingBooking, stAdm) := by decide

/-- C8: `numberAvailable` can go negative: starting from `stUpd`, where every
room has a non-negative `numberAvailable` (room 7 has 3) and booking 1 holds
2 rooms, `updateBookingById` to 10 rooms completes successfully and writes
`3 + 2 - 10 = -5` into room 7, since no admission check guards the update. -/
theorem updateBookingById_drives_negative :
    (∀ r ∈ stUpd.rooms, 0 ≤ r.numberAvailable) ∧
    (updateBookingById stUpd 1 dtoUp10).1 = Res.success Msg.bookingUpdated ∧
    roomAvail (updateBookingById stUpd 1 dtoUp10).2 7 = some (-5) := by decide

/-- C9: `getAllBookingsByUser` answers the user-missing client error when the
user id does not resolve; the empty client error (never a success with an
empty payload) when the user exists but owns no booking; and otherwise a
success whose payload is the user's bookings joined with their hotel and room
rows and stripped of `hotelId`, `roomId`, `createdAt`, `updatedAt`, `userId`
(the `BookingView` projection). -/
theorem getAllBookingsByUser_cases (st : DBState) (userId : Nat) :
    getAllBookingsByUser st userId =
      if userExists st userId = false then
        ListRes.clientError Msg.userMissing
      else if st.bookings.filter (fun b => b.userId == userId) = [] then
        ListRes.clientError Msg.noBookings
      else
        ListRes.success Msg.bookingsRetrieved
          ((st.bookings.filter (fun b => b.userId == userId)).map
            (stripBooking st)) := by
  unfold getAllBookingsByUser
  cases hu : userExists st userId
  · simp
  · by_cases hf : st.bookings.filter (fun b => b.userId == userId) = []
    · simp [hf]
    · have hl : 0 < (st.bookings.filter (fun b => b.userId == userId)).length :=
        List.length_pos.mpr hf
      simp [hf, hl]

/-- C10: `createBooking` answers the missing-entity client error exactly when
the user does not exist and the room does exist (the guard `!user && room`);
whenever the room does not exist the call instead ends in the catch-all
server error, and in all of these cases the store is unchanged. -/
theorem createBooking_guard_shape (st : DBState) (userId : Nat)
    (dto : BookingDto) (freshId : Nat) :
    (createBooking st userId dto freshId =
        (Res.clientError Msg.userOrRoomMissing, st) ↔
      userExists st userId = false ∧ (findRoom st dto.roomId).isSome = true) ∧
    ((findRoom st dto.roomId).isSome = false →
      createBooking st userId dto freshId =
        (Res.serverError Msg.errorCreatingBooking, st)) := by
  cases hu : userExists st userId <;>
    cases hr : findRoom st dto.roomId <;>
      simp [createBooking, hu, hr]
  split <;> simp

/-- C10 witness: in `stAdm`, user 2 is absent while room 5 exists, so the
missing-entity client error is answered; with user 1 and the absent room 9
the call ends in the catch-all server error, the store unchanged. -/
theorem createBooking_guard_shape_check :
    createBooking stAdm 2 dto4 51 = (Res.clientError Msg.userOrRoomMissing, stAdm) ∧
    createBooking stAdm 1 dtoNoRoom 51 =
      (Res.serverError Msg.errorCreatingBooking, stAdm) :=
  ⟨(createBooking_guard_shape stAdm 2 dto4 51).1.mpr ⟨by decide, by decide⟩,
   (createBooking_guard_shape stAdm 1 dtoNoRoom 51).2 (by decide)⟩

/-- C4: when the user and the room both resolve, `createBooking` rejects with
the insufficient-inventory client error, leaving the store unchanged, exactly
when `numberOfRooms ≥ numberAvailable` (the strict less-than admission
check); when `numberOfRooms < numberAvailable` it succeeds and leaves
`numberAvailable - numberOfRooms` on the room. -/
theorem createBooking_admission (st : DBState) (userId : Nat)
    (dto : BookingDto) (freshId : Nat) (room : Room)
    (hu : userExists st userId = true)
    (hr : findRoom st dto.roomId = some room) :
    (room.numberAvailable ≤ dto.numberOfRooms →
      createBooking st userId dto freshId =
        (Res.clientError Msg.insufficientRooms, st)) ∧
    (dto.numberOfRooms < room.numberAvailable →
      (createBooking st userId dto freshId).1 = Res.success Msg.bookingCreated ∧
      roomAvail (createBooking st userId dto freshId).2 dto.roomId =
        some (room.numberAvailable - dto.numberOfRooms)) := by
  have hid : room.id = dto.roomId := findRoom_id st dto.roomId room hr
  constructor
  · intro hle
    have hnl : ¬ dto.numberOfRooms < room.numberAvailable := not_lt.mpr hle
    simp [createBooking, hu, hr, hnl]
  · intro hlt
    refine ⟨by simp [createBooking, hu, hr, hlt], ?_⟩
    have h2 : (createBooking st userId dto freshId).2 =
        setRoomAvail
          { st with bookings := st.bookings ++
            [{ id := freshId, userId := userId, roomId := room.id,
               hotelId := room.hotelId, checkInDate := dto.checkInDate,
               checkOutDate := dto.checkOutDate,
               numberOfRooms := dto.numberOfRooms,
               cost := (getNumberOfNights dto.checkInDate dto.checkOutDate : Int) *
                 dto.numberOfRooms * room.price,
               createdAt := 0, updatedAt := 0 }] }
          room.id (room.numberAvailable - dto.numberOfRooms) := by
      simp [createBooking, hu, hr, hlt]
    rw [h2]
    unfold roomAvail
    rw [findRoom_setRoomAvail, findRoom_set_bookings, hr]
    simp [hid]

/-- C4 witness: against `stAdm`, whose room 5 has `numberAvailable = 5`,
booking 5 rooms is rejected with the insufficient-inventory error and booking
4 rooms succeeds, leaving `numberAvailable = 1`. -/
theorem createBooking_admission_check :
    createBooking stAdm 1 dto5 11 = (Res.clientError Msg.insufficientRooms, stAdm) ∧
    (createBooking stAdm 1 dto4 11).1 = Res.success Msg.bookingCreated ∧
    roomAvail (createBooking stAdm 1 dto4 11).2 5 = some 1 := by
  refine ⟨?_, ?_, ?_⟩
  · exact (createBooking_admission stAdm 1 dto5 11 room5
      (by decide) (by decide)).1 (by decide)
  · exact ((createBooking_admission stAdm 1 dto4 11 room5
      (by decide) (by decide)).2 (by decide)).1
  · have h := ((createBooking_admission stAdm 1 dto4 11 room5
      (by decide) (by decide)).2 (by decide)).2
    simpa [dto4, room5] using h

/-- C5: on a successful `createBooking`, the store gains exactly one booking
record, carrying the caller's user id, the requested room, the room's
`hotelId` and the cost `nights * numberOfRooms * price`, and the room's
`numberAvailable` drops by `numberOfRooms`. -/
theorem createBooking_creates_record (st : DBState) (userId : Nat)
    (dto : BookingDto) (freshId : Nat) (room : Room)
    (hu : userExists st userId = true)
    (hr : findRoom st dto.roomId = some room)
    (hadm : dto.numberOfRooms < room.numberAvailable) :
    (createBooking st userId dto freshId).1 = Res.success Msg.bookingCreated ∧
    roomAvail (createBooking st userId dto freshId).2 dto.roomId =
      some (room.numberAvailable - dto.numberOfRooms) ∧
    ∃ b : Booking,
      (createBooking st userId dto freshId).2.bookings = st.bookings ++ [b] ∧
      b.userId = userId ∧ b.roomId = dto.roomId ∧ b.hotelId = room.hotelId ∧
      b.checkInDate = dto.checkInDate ∧ b.checkOutDate = dto.checkOutDate ∧
      b.numberOfRooms = dto.numberOfRooms ∧
      b.cost = (getNumberOfNights dto.checkInDate dto.checkOutDate : Int) *
        dto.numberOfRooms * room.price := by
  have hid : room.id = dto.roomId := findRoom_id st dto.roomId room hr
  refine ⟨by simp [createBooking, hu, hr, hadm], ?_, ?_⟩
  · have h2 : (createBooking st userId dto freshId).2 =
        setRoomAvail
          { st with bookings := st.bookings ++
            [{ id := freshId, userId := userId, roomId := room.id,
               hotelId := room.hotelId, checkInDate := dto.checkInDate,
               checkOutDate := dto.checkOutDate,
               numberOfRooms := dto.numberOfRooms,
               cost := (getNumberOfNights dto.checkInDate dto.checkOutDate : Int) *
                 dto.numberOfRooms * room.price,
               createdAt := 0, updatedAt := 0 }] }
          room.id (room.numberAvailable - dto.numberOfRooms) := by
      simp [createBooking, hu, hr, hadm]
    rw [h2]
    unfold roomAvail
    rw [findRoom_setRoomAvail, findRoom_set_bookings, hr]
    simp [hid]
  · refine
      ⟨{ id := freshId, userId := userId, roomId := room.id,
         hotelId := room.hotelId, checkInDate := dto.checkInDate,
         checkOutDate := dto.checkOutDate, numberOfRooms := dto.numberOfRooms,
         cost := (getNumberOfNights dto.checkInDate dto.checkOutDate : Int) *
           dto.numberOfRooms * room.price,
         createdAt := 0, updatedAt := 0 },
       ?_, rfl, hid, rfl, rfl, rfl, rfl, rfl⟩
    simp [createBooking, hu, hr, hadm, setRoomAvail]

/-- C5 witness: in `stAdm` a three-night stay (2024-01-01 to 2024-01-04) of
two rooms priced 100 a night yields `nights = 3` and a created booking of
cost 600 that carries the room's `hotelId`. -/
theorem createBooking_creates_record_check :
    getNumberOfNights jan1 jan4 = 3 ∧
    (createBooking stAdm 1 dtoJan 21).1 = Res.success Msg.bookingCreated ∧
    ∃ b : Booking,
      (createBooking stAdm 1 dtoJan 21).2.bookings = stAdm.bookings ++ [b] ∧
      b.hotelId = 1 ∧ b.cost = 600 := by
  obtain ⟨h1, _h2, b, hb, _hu, _hr, hh, _hci, _hco, _hn, hc⟩ :=
    createBooking_creates_record stAdm 1 dtoJan 21 room5
      (by decide) (by decide) (by decide)
  refine ⟨by decide, h1, b, hb, ?_, ?_⟩
  · rw [hh]; decide
  · rw [hc]; decide

/-- C6: for an existing booking and a resolving `dto.roomId`,
`updateBookingById` succeeds, writes
`numberAvailable + oldNumberOfRooms - newNumberOfRooms` into the room named
by `dto.roomId`, and overwrites the booking's stored fields with the dto and
the recomputed cost `nights * numberOfRooms * price` of the new room. -/
theorem updateBookingById_effect (st : DBState) (bookingId : Nat)
    (dto : BookingDto) (booking : Booking) (room : Room)
    (hb : findBooking st bookingId = some booking)
    (hr : findRoom st dto.roomId = some room) :
    (updateBookingById st bookingId dto).1 = Res.success Msg.bookingUpdated ∧
    roomAvail (updateBookingById st bookingId dto).2 dto.roomId =
      some (room.numberAvailable + booking.numberOfRooms - dto.numberOfRooms) ∧
    findBooking (updateBookingById st bookingId dto).2 bookingId =
      some { booking with
             roomId := dto.roomId, checkInDate := dto.checkInDate,
             checkOutDate := dto.checkOutDate,
             numberOfRooms := dto.numberOfRooms,
             cost := (getNumberOfNights dto.checkInDate dto.checkOutDate : Int) *
               dto.numberOfRooms * room.price } := by
  have hid : room.id = dto.roomId := findRoom_id st dto.roomId room hr
  have hbid : (booking.id == bookingId) = true := by
    have hb' : st.bookings.find? (fun b => b.id == bookingId) = some booking := hb
    have h3 := List.find?_some hb'
    exact h3
  have h2 : (updateBookingById st bookingId dto).2 =
      { setRoomAvail st room.id
          (room.numberAvailable + booking.numberOfRooms - dto.numberOfRooms) with
        bookings :=
          (setRoomAvail st room.id
            (room.numberAvailable + booking.numberOfRooms -
              dto.numberOfRooms)).bookings.map (fun b =>
            if b.id == bookingId then
              { b with
                roomId := dto.roomId, checkInDate := dto.checkInDate,
                checkOutDate := dto.checkOutDate,
                numberOfRooms := dto.numberOfRooms,
                cost := (getNumberOfNights dto.checkInDate dto.checkOutDate : Int) *
                  dto.numberOfRooms * room.price }
            else b) } := by
    simp [updateBookingById, hb, hr]
  refine ⟨by simp [updateBookingById, hb, hr], ?_, ?_⟩
  · rw [h2]
    unfold roomAvail
    rw [findRoom_set_bookings, findRoom_setRoomAvail, hr]
    simp [hid]
  · rw [h2]
    rw [findBooking_map_id_preserving _ _ _ (fun b => by
      by_cases h : b.id == bookingId <;> simp [h])]
    rw [findBooking_setRoomAvail, hb]
    show some _ = some _
    exact congrArg some (if_pos hbid)

/-- C6 witness: updating booking 1 of `stUpd` (two rooms) to five rooms on
room 7, which has `numberAvailable = 3`, succeeds and leaves
`numberAvailable = 3 + 2 - 5 = 0`. -/
theorem updateBookingById_effect_check :
    (updateBookingById stUpd 1 dtoUp5).1 = Res.success Msg.bookingUpdated ∧
    roomAvail (updateBookingById stUpd 1 dtoUp5).2 7 = some 0 := by
  obtain ⟨h1, h2, _h3⟩ :=
    updateBookingById_effect stUpd 1 dtoUp5 bkg2 room3avail
      (by decide) (by decide)
  exact ⟨h1, by simpa [dtoUp5, room3avail, bkg2] using h2⟩

/-- C7 counterexample: in `stAdm`, a request whose check-out equals its
check-in (no validation error possible per the claim) is accepted:
`createBooking` answers success and creates a booking with cost 0, instead
of failing with a range validation error. -/
theorem createBooking_same_day_accepted :
    dtoSameDay.checkOutDate ≤ dtoSameDay.checkInDate ∧
    (createBooking stAdm 1 dtoSameDay 31).1 = Res.success Msg.bookingCreated ∧
    (∃ b ∈ (createBooking stAdm 1 dtoSameDay 31).2.bookings,
      b.id = 31 ∧ b.cost = 0) := by decide

/-- C7 amended: `createBooking` performs no date-range validation: when
`checkOutDate ≤ checkInDate` and the existence and admission checks pass, it
silently computes `nights` from the absolute day difference (zero when the
dates are equal) and creates the booking with the resulting cost. -/
theorem createBooking_no_date_validation (st : DBState) (userId : Nat)
    (dto : BookingDto) (freshId : Nat) (room : Room)
    (hu : userExists st userId = true)
    (hr : findRoom st dto.roomId = some room)
    (hadm : dto.numberOfRooms < room.numberAvailable)
    (_hdate : dto.checkOutDate ≤ dto.checkInDate) :
    (createBooking st userId dto freshId).1 = Res.success Msg.bookingCreated ∧
    ∃ b : Booking,
      (createBooking st userId dto freshId).2.bookings = st.bookings ++ [b] ∧
      b.cost = (getNumberOfNights dto.checkInDate dto.checkOutDate : Int) *
        dto.numberOfRooms * room.price ∧
      (dto.checkOutDate = dto.checkInDate → b.cost = 0) := by
  refine ⟨by simp [createBooking, hu, hr, hadm], ?_⟩
  refine
    ⟨{ id := freshId, userId := userId, roomId := room.id,
       hotelId := room.hotelId, checkInDate := dto.checkInDate,
       checkOutDate := dto.checkOutDate, numberOfRooms := dto.numberOfRooms,
       cost := (getNumberOfNights dto.checkInDate dto.checkOutDate : Int) *
         dto.numberOfRooms * room.price,
       createdAt := 0, updatedAt := 0 },
     ?_, rfl, ?_⟩
  · simp [createBooking, hu, hr, hadm, setRoomAvail]
  · intro he
    have hzero : getNumberOfNights dto.checkInDate dto.checkOutDate = 0 := by
      unfold getNumberOfNights oneDay
      rw [he]
      simp
    simp [hzero]

/-- C7 amended witness: the zero-night request of `dtoSameDay` is accepted
against `stAdm` and the created booking costs 0. -/
theorem createBooking_no_date_validation_check :
    (createBooking stAdm 1 dtoSameDay 41).1 = Res.success Msg.bookingCreated ∧
    ∃ b : Booking,
      (createBooking stAdm 1 dtoSameDay 41).2.bookings = stAdm.bookings ++ [b] ∧
      b.cost = 0 := by
  obtain ⟨h1, b, hb, _hc, h0⟩ :=
    createBooking_no_date_validation stAdm 1 dtoSameDay 41 room5
      (by decide) (by decide) (by decide) (by decide)
  exact ⟨h1, b, hb, h0 rfl⟩

end BookIt
